import Mathlib

/-!
Shallow embedding of `src/Malmo/src/VideoFrameWriter.cpp` (class
`malmo::VideoFrameWriter`): an asynchronous frame-ingestion pipeline that
throttles submitted video frames to a target rate, records per-frame
sidecar metadata, converts pixel formats, and forwards accepted frames to
an external encoding sink from a background consumer thread.

Modelling conventions:
* Time is measured in the tick unit of `boost::posix_time` under its
  default compile configuration, i.e. microseconds; a `ptime` value and a
  `time_duration` are both `Int` tick counts.
  `boost::posix_time::milliseconds(1000)` is the tick count `1000000`, and
  `time_duration operator/(int)` divides the tick count, discarding the
  remainder.
* `boost::posix_time::to_iso_string(t)` is abstracted as the decimal
  rendering of the tick count (an injective textual rendering of the
  timestamp; no claim depends on the ISO calendar layout).
* The frame's position and orientation fields (`float` in the C++ struct)
  are modelled as `Int`: their values are only echoed verbatim into the
  sidecar line and never computed with, so floating-point semantics are
  irrelevant to every property proved here.
* Byte buffers are `List Nat`; the open `std::ofstream` is a list of the
  lines written so far plus a flag recording whether the stream is open
  (an insertion on a closed `ofstream` sets `failbit` and has no effect on
  the file, which the model renders as "no line appended").
* The single background consumer thread started by `open()` is modelled by
  deferring its drains to `close()`'s `join`: the queue is FIFO and the
  consumer's local `count` is monotone, so the sequence of `doWrite`
  invocations observable over a whole open/close session does not depend
  on when the individual drains are scheduled.
-/

/-- Mirror of `TimestampedVideoFrame`: one captured frame.  `width`,
`height`, `channels` are non-negative sizes; `pixels` is the byte buffer;
`timestamp` is a `ptime` in microsecond ticks; `xPos ... pitch` are the
position/orientation fields echoed into the sidecar line. -/
structure TimestampedVideoFrame where
  width : Nat
  height : Nat
  channels : Nat
  pixels : List Nat
  timestamp : Int
  xPos : Int
  yPos : Int
  zPos : Int
  yaw : Int
  pitch : Int
deriving Repr, DecidableEq, Inhabited

/-- One invocation of the abstract Sink `doWrite(pixels, width, height,
count)` made by the consumer loop. -/
structure SinkCall where
  pixels : List Nat
  width : Nat
  height : Nat
  index : Nat
deriving Repr, DecidableEq, Inhabited

/-- Mirror of the `VideoFrameWriter` object state: constructor-fixed
configuration (`width`, `height`, `framesPerSecond`, `frameDuration`),
the lifecycle flags, the throttle state, the sidecar stream (as the list
of lines written, plus an open flag), the FIFO hand-off queue, the
"frames available" signal, and bookkeeping for the consumer thread (its
local `count` and the log of Sink calls it has made this session). -/
structure WriterState where
  width : Int
  height : Int
  framesPerSecond : Int
  isOpen : Bool
  frameDuration : Int
  startTime : Int
  lastTimestamp : Int
  frameIndex : Nat
  sidecar : List String
  infoStreamOpen : Bool
  frameBuffer : List TimestampedVideoFrame
  framesAvailable : Bool
  consumerCount : Nat
  sinkLog : List SinkCall
  threadRunning : Bool
deriving Repr, DecidableEq, Inhabited

/-- `boost::posix_time::milliseconds(1000) / frames_per_second`: 1000 ms
is 1 000 000 microsecond ticks, and boost's `time_duration` division by an
`int` divides the tick count, discarding the remainder.  Division by zero
is undefined behaviour in the C++ source (there is no guard), modelled
here as `none`. -/
def frameDurationOf (fps : Int) : Option Int :=
  if fps = 0 then none else some (1000000 / fps)

/-- Mirror of the `VideoFrameWriter` constructor: stores the
configuration and computes `frame_duration`; `none` models the undefined
behaviour of the unguarded division when `frames_per_second == 0`.  (The
constructor's side-file path computation is filesystem-only and carries no
state used by any operation modelled here.)  All fields not assigned by
the constructor start at their default values. -/
def mkVideoFrameWriter (w h fps : Int) : Option WriterState :=
  (frameDurationOf fps).map (fun d =>
    { width := w
      height := h
      framesPerSecond := fps
      isOpen := false
      frameDuration := d
      startTime := 0
      lastTimestamp := 0
      frameIndex := 0
      sidecar := []
      infoStreamOpen := false
      frameBuffer := []
      framesAvailable := false
      consumerCount := 0
      sinkLog := []
      threadRunning := false })

/-- `std::setfill('0') << std::setw(6) << n`: pad the decimal rendering
of `n` on the left with `'0'` to a width of at least 6 (wider renderings
are kept whole). -/
def padZeros6 (n : Nat) : String :=
  let s := toString n
  if s.length < 6 then String.mk (List.replicate (6 - s.length) '0') ++ s else s

/-- The sidecar line written for an accepted frame:
`to_iso_string(timestamp) << " " << "frame_NNNNNN" << " " << "xyzyp: x y z yaw pitch"`. -/
def sidecarEntry (f : TimestampedVideoFrame) (idx : Nat) : String :=
  toString f.timestamp ++ " frame_" ++ padZeros6 idx ++ " xyzyp: " ++
    toString f.xPos ++ " " ++ toString f.yPos ++ " " ++ toString f.zPos ++ " " ++
    toString f.yaw ++ " " ++ toString f.pitch

/-- Mirror of `VideoFrameWriter::write` (the producer-side submit), which
runs under `write_mutex`: if `frame.timestamp - last_timestamp >=
frame_duration` it records the new `last_timestamp`, appends one sidecar
line (the insertion reaches the file only while the stream is open),
increments `frame_index`, enqueues the frame, and raises the
`frames_available` signal; otherwise it does nothing.  Note that it never
consults `is_open`. -/
def write (s : WriterState) (f : TimestampedVideoFrame) : WriterState :=
  if s.frameDuration ≤ f.timestamp - s.lastTimestamp then
    { s with
      lastTimestamp := f.timestamp
      sidecar := if s.infoStreamOpen then s.sidecar ++ [sidecarEntry f s.frameIndex] else s.sidecar
      frameIndex := s.frameIndex + 1
      frameBuffer := s.frameBuffer ++ [f]
      framesAvailable := true }
  else s

/-- The RGBD→DDD extraction loop of `VideoFrameWriter::writeFrames`,
taken with `n = width*height`: for each pixel `i` below `n` the output
bytes `3i`, `3i+1`, `3i+2` all equal input byte `i*4+3` (out-of-range
reads, impossible under the buffer-size invariant, default to 0). -/
def extractDDD (pixels : List Nat) : Nat → List Nat
  | 0 => []
  | n + 1 =>
    extractDDD pixels n ++
      [pixels.getD (n * 4 + 3) 0, pixels.getD (n * 4 + 3) 0, pixels.getD (n * 4 + 3) 0]

/-- The per-frame pixel handling of the consumer loop, as a pure function
of `(pixels, width, height, channels)`: 4 channels → grayscale DDD buffer,
3 channels → the input buffer passed through unchanged, anything else →
`none` (the loop throws `std::runtime_error("Unsupported number of
channels")`). -/
def convertPixels (pixels : List Nat) (width height channels : Nat) : Option (List Nat) :=
  if channels = 4 then some (extractDDD pixels (width * height))
  else if channels = 3 then some pixels
  else none

/-- Mirror of the drain loop of `VideoFrameWriter::writeFrames`, run on
the queue contents with the consumer's local `count`: pop until the
sentinel (an empty pop yields a default frame with `width = 0`; a queued
`width = 0` frame stops the drain the same way), convert each real frame
and call the Sink with the current `count`, and abort with the
`runtime_error` on an unsupported channel count.  Returns the list of
Sink calls made, the error if one was thrown, and the frames left in the
queue when the drain stopped. -/
def writeFrames :
    List TimestampedVideoFrame → Nat →
      (List SinkCall × Option String) × List TimestampedVideoFrame
  | [], _ => (([], none), [])
  | f :: rest, count =>
    if f.width = 0 then (([], none), rest)
    else
      match convertPixels f.pixels f.width f.height f.channels with
      | some out =>
        let r := writeFrames rest (count + 1)
        ((⟨out, f.width, f.height, count⟩ :: r.1.1, r.1.2), r.2)
      | none => (([], some "Unsupported number of channels"), rest)

/-- Mirror of `VideoFrameWriter::close`: a no-op when not open; otherwise
it closes the sidecar stream, clears `is_open`, raises `frames_available`
and joins the consumer thread.  The join lets the consumer run to
completion, which drains the queue through the Sink (continuing its local
`count`), leaves behind whatever a thrown error did not consume, and
clears `frames_available` unless it died on an error before reaching the
sentinel. -/
def closeWriter (s : WriterState) : WriterState :=
  if s.isOpen then
    let r := writeFrames s.frameBuffer s.consumerCount
    { s with
      infoStreamOpen := false
      isOpen := false
      sinkLog := s.sinkLog ++ r.1.1
      consumerCount := s.consumerCount + r.1.1.length
      frameBuffer := r.2
      framesAvailable := r.1.2.isSome
      threadRunning := false }
  else s

/-- Mirror of `VideoFrameWriter::open`: first `close()` (idempotent
re-open), then truncate-open the sidecar stream and write the two header
lines, set `is_open`, capture `start_time` (passed in, since the clock is
an input), set `last_timestamp = start_time - frame_duration`, zero
`frame_index`, clear `frames_available`, and start a fresh consumer
thread (whose local `count` restarts at 0 and which has made no Sink
calls yet). -/
def openWriter (s : WriterState) (startTime : Int) : WriterState :=
  let c := closeWriter s
  { c with
    infoStreamOpen := true
    sidecar := ["width=" ++ toString c.width, "height=" ++ toString c.height]
    isOpen := true
    startTime := startTime
    lastTimestamp := startTime - c.frameDuration
    frameIndex := 0
    framesAvailable := false
    consumerCount := 0
    sinkLog := []
    threadRunning := true }

/-- Mirror of `VideoFrameWriter::~VideoFrameWriter`, whose body is
`this->close()`. -/
def destroyVideoFrameWriter (s : WriterState) : WriterState :=
  closeWriter s

/-- The subsequence of a submission list that the Throttle Gate accepts,
starting from state `s` (each acceptance advancing the state by `write`). -/
def acceptedFrames (s : WriterState) :
    List TimestampedVideoFrame → List TimestampedVideoFrame
  | [] => []
  | f :: fs =>
    if s.frameDuration ≤ f.timestamp - s.lastTimestamp then
      f :: acceptedFrames (write s f) fs
    else
      acceptedFrames s fs

/-- The sidecar lines produced for a list of accepted frames whose first
member is accepted at producer counter value `i`. -/
def sidecarLinesFor : List TimestampedVideoFrame → Nat → List String
  | [], _ => []
  | f :: fs, i => sidecarEntry f i :: sidecarLinesFor fs (i + 1)

/-- A Sink call delivers exactly frame `f`: its buffer is the pixel
conversion of `f` and it carries `f`'s dimensions. -/
def matchesFrame (c : SinkCall) (f : TimestampedVideoFrame) : Prop :=
  convertPixels f.pixels f.width f.height f.channels = some c.pixels ∧
    c.width = f.width ∧ c.height = f.height

/-- A fresh writer configured 1×1 at 10 fps (frame_duration 100 ms =
100000 µs), used for concrete scenarios. -/
def s10 : WriterState :=
  (mkVideoFrameWriter 1 1 10).getD default

/-- A 1×1 3-channel frame timestamped `t` microseconds, used for concrete
scenarios. -/
def frAt (t : Int) : TimestampedVideoFrame :=
  { width := 1, height := 1, channels := 3, pixels := [7, 8, 9]
    timestamp := t, xPos := 1, yPos := 2, zPos := 3, yaw := 4, pitch := 5 }

/-! Helper lemmas about `write` (the producer-side submit). -/

theorem write_of_accept (s : WriterState) (f : TimestampedVideoFrame)
    (h : s.frameDuration ≤ f.timestamp - s.lastTimestamp) :
    write s f =
      { s with
        lastTimestamp := f.timestamp
        sidecar := if s.infoStreamOpen then s.sidecar ++ [sidecarEntry f s.frameIndex] else s.sidecar
        frameIndex := s.frameIndex + 1
        frameBuffer := s.frameBuffer ++ [f]
        framesAvailable := true } := by
  unfold write; rw [if_pos h]

theorem write_of_drop (s : WriterState) (f : TimestampedVideoFrame)
    (h : ¬ s.frameDuration ≤ f.timestamp - s.lastTimestamp) :
    write s f = s := by
  unfold write; rw [if_neg h]

theorem write_frameDuration (s : WriterState) (f : TimestampedVideoFrame) :
    (write s f).frameDuration = s.frameDuration := by
  unfold write; split <;> rfl

theorem write_isOpen (s : WriterState) (f : TimestampedVideoFrame) :
    (write s f).isOpen = s.isOpen := by
  unfold write; split <;> rfl

theorem write_infoStreamOpen (s : WriterState) (f : TimestampedVideoFrame) :
    (write s f).infoStreamOpen = s.infoStreamOpen := by
  unfold write; split <;> rfl

theorem write_consumerCount (s : WriterState) (f : TimestampedVideoFrame) :
    (write s f).consumerCount = s.consumerCount := by
  unfold write; split <;> rfl

theorem write_sinkLog (s : WriterState) (f : TimestampedVideoFrame) :
    (write s f).sinkLog = s.sinkLog := by
  unfold write; split <;> rfl

theorem write_threadRunning (s : WriterState) (f : TimestampedVideoFrame) :
    (write s f).threadRunning = s.threadRunning := by
  unfold write; split <;> rfl

theorem write_frameIndex_iff (s : WriterState) (f : TimestampedVideoFrame) :
    (write s f).frameIndex = s.frameIndex + 1 ↔
      s.frameDuration ≤ f.timestamp - s.lastTimestamp := by
  by_cases h : s.frameDuration ≤ f.timestamp - s.lastTimestamp
  · rw [write_of_accept s f h]; simpa using h
  · rw [write_of_drop s f h]; simp [h]

theorem closeWriter_frameDuration (s : WriterState) :
    (closeWriter s).frameDuration = s.frameDuration := by
  unfold closeWriter; split <;> rfl

theorem closeWriter_width (s : WriterState) : (closeWriter s).width = s.width := by
  unfold closeWriter; split <;> rfl

theorem closeWriter_height (s : WriterState) : (closeWriter s).height = s.height := by
  unfold closeWriter; split <;> rfl

theorem closeWriter_of_not_open (s : WriterState) (h : s.isOpen = false) :
    closeWriter s = s := by
  unfold closeWriter; rw [h]; rfl

theorem closeWriter_isOpen (s : WriterState) : (closeWriter s).isOpen = false := by
  unfold closeWriter; split <;> simp_all

/-! The throttle invariant: consecutive accepted frames are at least
`frame_duration` apart. -/

theorem acceptedFrames_chain (l : List TimestampedVideoFrame) :
    ∀ s : WriterState,
      List.Chain' (fun a b => s.frameDuration ≤ b.timestamp - a.timestamp)
        (acceptedFrames s l) ∧
      (∀ f, (acceptedFrames s l).head? = some f →
        s.frameDuration ≤ f.timestamp - s.lastTimestamp) := by
  induction l with
  | nil => intro s; simp [acceptedFrames]
  | cons f fs ih =>
    intro s
    by_cases h : s.frameDuration ≤ f.timestamp - s.lastTimestamp
    · obtain ⟨ihc, ihh⟩ := ih (write s f)
      have hd := write_frameDuration s f
      have hl : (write s f).lastTimestamp = f.timestamp := by
        rw [write_of_accept s f h]
      simp only [acceptedFrames, if_pos h]
      refine ⟨List.chain'_cons'.mpr ⟨?_, ?_⟩, ?_⟩
      · intro g hg
        have := ihh g (Option.mem_def.mp hg)
        rw [hd, hl] at this
        exact this
      · simpa only [hd] using ihc
      · intro g hg
        simp only [List.head?_cons, Option.some.injEq] at hg
        rw [← hg]
        exact h
    · simp only [acceptedFrames, if_neg h]
      exact ih s

/-! The cumulative effect of a list of submissions on the producer-side
state. -/

theorem foldl_write_spec (l : List TimestampedVideoFrame) :
    ∀ s : WriterState, s.infoStreamOpen = true →
      (List.foldl write s l).sidecar =
        s.sidecar ++ sidecarLinesFor (acceptedFrames s l) s.frameIndex ∧
      (List.foldl write s l).frameBuffer = s.frameBuffer ++ acceptedFrames s l ∧
      (List.foldl write s l).frameIndex = s.frameIndex + (acceptedFrames s l).length ∧
      (List.foldl write s l).frameDuration = s.frameDuration ∧
      (List.foldl write s l).isOpen = s.isOpen ∧
      (List.foldl write s l).infoStreamOpen = s.infoStreamOpen ∧
      (List.foldl write s l).consumerCount = s.consumerCount ∧
      (List.foldl write s l).sinkLog = s.sinkLog := by
  induction l with
  | nil => intro s _; simp [acceptedFrames, sidecarLinesFor]
  | cons f fs ih =>
    intro s hs
    by_cases h : s.frameDuration ≤ f.timestamp - s.lastTimestamp
    · have hs' : (write s f).infoStreamOpen = true := by
        rw [write_infoStreamOpen]; exact hs
      obtain ⟨i1, i2, i3, i4, i5, i6, i7, i8⟩ := ih (write s f) hs'
      have hsc : (write s f).sidecar = s.sidecar ++ [sidecarEntry f s.frameIndex] := by
        rw [write_of_accept s f h]; simp [hs]
      have hfb : (write s f).frameBuffer = s.frameBuffer ++ [f] := by
        rw [write_of_accept s f h]
      have hfi : (write s f).frameIndex = s.frameIndex + 1 := by
        rw [write_of_accept s f h]
      simp only [List.foldl_cons, acceptedFrames, if_pos h, sidecarLinesFor]
      refine ⟨?_, ?_, ?_, ?_, ?_, ?_, ?_, ?_⟩
      · rw [i1, hsc, hfi, List.append_assoc, List.singleton_append]
      · rw [i2, hfb, List.append_assoc, List.singleton_append]
      · rw [i3, hfi, List.length_cons]; omega
      · rw [i4, write_frameDuration]
      · rw [i5, write_isOpen]
      · rw [i6, write_infoStreamOpen]
      · rw [i7, write_consumerCount]
      · rw [i8, write_sinkLog]
    · simp only [List.foldl_cons, acceptedFrames, if_neg h, write_of_drop s f h]
      exact ih s hs

/-! Helper lemmas about the pixel conversion. -/

theorem extractDDD_eq_map (p : List Nat) (n : Nat) :
    extractDDD p n = (List.range (3 * n)).map (fun k => p.getD (k / 3 * 4 + 3) 0) := by
  induction n with
  | zero => rfl
  | succ m ih =>
    have h3 : 3 * (m + 1) = (3 * m + 2) + 1 := by omega
    have h2 : 3 * m + 2 = (3 * m + 1) + 1 := by omega
    have e0 : 3 * m / 3 = m := by omega
    have e1 : (3 * m + 1) / 3 = m := by omega
    have e2 : (3 * m + 2) / 3 = m := by omega
    simp only [extractDDD, ih, h3, List.range_succ, h2]
    simp [e0, e1, e2]

theorem extractDDD_length (p : List Nat) (n : Nat) :
    (extractDDD p n).length = 3 * n := by
  rw [extractDDD_eq_map]
  simp

theorem extractDDD_getD (p : List Nat) (n i j : Nat) (hi : i < n) (hj : j < 3) :
    (extractDDD p n).getD (3 * i + j) 0 = p.getD (i * 4 + 3) 0 := by
  rw [extractDDD_eq_map]
  have hlen : 3 * i + j < ((List.range (3 * n)).map (fun k => p.getD (k / 3 * 4 + 3) 0)).length := by
    simp only [List.length_map, List.length_range]
    omega
  rw [List.getD_eq_getElem _ _ hlen, List.getElem_map]
  have hr : 3 * i + j < 3 * n := by omega
  rw [List.getElem_range _ (by simpa using hr)]
  have : (3 * i + j) / 3 = i := by omega
  rw [this]

theorem extractDDD_congr (p q : List Nat) (n : Nat)
    (h : ∀ i, i < n → p.getD (i * 4 + 3) 0 = q.getD (i * 4 + 3) 0) :
    extractDDD p n = extractDDD q n := by
  induction n with
  | zero => rfl
  | succ m ih =>
    simp only [extractDDD]
    rw [ih (fun i hi => h i (by omega)), h m (by omega)]

theorem extractDDD_const (p : List Nat) (n V : Nat)
    (h : ∀ i, i < n → p.getD (i * 4 + 3) 0 = V) :
    ∀ b ∈ extractDDD p n, b = V := by
  intro b hb
  rw [extractDDD_eq_map] at hb
  simp only [List.mem_map, List.mem_range] at hb
  obtain ⟨k, hk, hbk⟩ := hb
  rw [← hbk]
  exact h (k / 3) (by omega)

/-! Helper lemmas about the consumer drain loop. -/

theorem convertPixels_of_supported (f : TimestampedVideoFrame)
    (h : f.channels = 3 ∨ f.channels = 4) :
    ∃ out, convertPixels f.pixels f.width f.height f.channels = some out := by
  rcases h with h3 | h4
  · exact ⟨f.pixels, by simp [convertPixels, h3]⟩
  · exact ⟨extractDDD f.pixels (f.width * f.height), by simp [convertPixels, h4]⟩

theorem writeFrames_cons_supported (f : TimestampedVideoFrame)
    (fs : List TimestampedVideoFrame) (c : Nat) (out : List Nat)
    (hw : ¬ f.width = 0)
    (hout : convertPixels f.pixels f.width f.height f.channels = some out) :
    writeFrames (f :: fs) c =
      ((⟨out, f.width, f.height, c⟩ :: (writeFrames fs (c + 1)).1.1,
        (writeFrames fs (c + 1)).1.2), (writeFrames fs (c + 1)).2) := by
  simp only [writeFrames, if_neg hw, hout]

theorem writeFrames_cons_unsupported (f : TimestampedVideoFrame)
    (fs : List TimestampedVideoFrame) (c : Nat)
    (hw : ¬ f.width = 0) (h3 : f.channels ≠ 3) (h4 : f.channels ≠ 4) :
    writeFrames (f :: fs) c = (([], some "Unsupported number of channels"), fs) := by
  simp only [writeFrames, if_neg hw, convertPixels, if_neg h4, if_neg h3]

theorem writeFrames_ok (l : List TimestampedVideoFrame) :
    ∀ c : Nat, (∀ f ∈ l, f.width ≠ 0 ∧ (f.channels = 3 ∨ f.channels = 4)) →
      (writeFrames l c).1.2 = none ∧
      (writeFrames l c).2 = [] ∧
      (writeFrames l c).1.1.length = l.length ∧
      (writeFrames l c).1.1.map SinkCall.index = List.range' c l.length ∧
      (∀ i, i < l.length →
        matchesFrame ((writeFrames l c).1.1.getD i default) (l.getD i default)) := by
  induction l with
  | nil => intro c _; simp [writeFrames]
  | cons f fs ih =>
    intro c h
    obtain ⟨hw, hch⟩ := h f (List.mem_cons_self f fs)
    obtain ⟨out, hout⟩ := convertPixels_of_supported f hch
    obtain ⟨e1, e2, e3, e4, e5⟩ := ih (c + 1) (fun g hg => h g (List.mem_cons_of_mem f hg))
    rw [writeFrames_cons_supported f fs c out hw hout]
    refine ⟨e1, e2, by simp [e3], ?_, ?_⟩
    · simp only [List.map_cons, e4, List.length_cons]
      rw [List.range'_succ c fs.length 1]
    · intro i hi
      match i with
      | 0 =>
        simp only [List.getD_cons_zero]
        exact ⟨hout, rfl, rfl⟩
      | i + 1 =>
        simp only [List.getD_cons_succ]
        exact e5 i (by simpa using hi)

theorem writeFrames_fatal (pre : List TimestampedVideoFrame) (bad : TimestampedVideoFrame)
    (post : List TimestampedVideoFrame) :
    ∀ c : Nat, (∀ f ∈ pre, f.width ≠ 0 ∧ (f.channels = 3 ∨ f.channels = 4)) →
      bad.width ≠ 0 → bad.channels ≠ 3 → bad.channels ≠ 4 →
      (writeFrames (pre ++ bad :: post) c).1.2 = some "Unsupported number of channels" ∧
      (writeFrames (pre ++ bad :: post) c).1.1.length = pre.length ∧
      (writeFrames (pre ++ bad :: post) c).1.1.map SinkCall.index = List.range' c pre.length ∧
      (writeFrames (pre ++ bad :: post) c).2 = post := by
  induction pre with
  | nil =>
    intro c _ hbw hb3 hb4
    rw [List.nil_append, writeFrames_cons_unsupported bad post c hbw hb3 hb4]
    simp
  | cons f fs ih =>
    intro c h hbw hb3 hb4
    obtain ⟨hw, hch⟩ := h f (List.mem_cons_self f fs)
    obtain ⟨out, hout⟩ := convertPixels_of_supported f hch
    obtain ⟨e1, e2, e3, e4⟩ :=
      ih (c + 1) (fun g hg => h g (List.mem_cons_of_mem f hg)) hbw hb3 hb4
    rw [List.cons_append, writeFrames_cons_supported f (fs ++ bad :: post) c out hw hout]
    refine ⟨e1, by simp [e2], ?_, e4⟩
    simp only [List.map_cons, e3, List.length_cons]
    rw [List.range'_succ c fs.length 1]

/-! Helper lemma about the 6-wide zero padding. -/

theorem padZeros6_length (n : Nat) : (padZeros6 n).length = max 6 (toString n).length := by
  by_cases h : (toString n).length < 6
  · have hp : padZeros6 n
        = String.mk (List.replicate (6 - (toString n).length) '0') ++ toString n := by
      unfold padZeros6
      simp [h]
    have hmk : (String.mk (List.replicate (6 - (toString n).length) '0')).length
        = 6 - (toString n).length := by
      show (List.replicate (6 - (toString n).length) '0').length = 6 - (toString n).length
      simp
    rw [hp, String.length_append, hmk]
    omega
  · have hp : padZeros6 n = toString n := by
      unfold padZeros6
      simp [h]
    rw [hp]
    omega

theorem closeWriter_of_open (s : WriterState) (h : s.isOpen = true) :
    closeWriter s =
      { s with
        infoStreamOpen := false
        isOpen := false
        sinkLog := s.sinkLog ++ (writeFrames s.frameBuffer s.consumerCount).1.1
        consumerCount := s.consumerCount + (writeFrames s.frameBuffer s.consumerCount).1.1.length
        frameBuffer := (writeFrames s.frameBuffer s.consumerCount).2
        framesAvailable := (writeFrames s.frameBuffer s.consumerCount).1.2.isSome
        threadRunning := false } := by
  simp [closeWriter, h]

theorem closeWriter_sinkLog_of_open (s : WriterState) (h : s.isOpen = true) :
    (closeWriter s).sinkLog = s.sinkLog ++ (writeFrames s.frameBuffer s.consumerCount).1.1 := by
  rw [closeWriter_of_open s h]

/-- C1: `write` accepts a frame iff `frame.timestamp - last_accepted_timestamp ≥
frame_duration`; on acceptance (with the sidecar stream open, as it is in a
session) it sets `last_timestamp` to the frame's timestamp, appends exactly one
sidecar line, increments `frame_index` and enqueues the frame; otherwise it is a
complete no-op.  Any two consecutively accepted frames are at least
`frame_duration` apart, and in the fps=10 scenario with submissions at
0/30/60/100/250 ms after start exactly the frames at 0, 100 and 250 ms are
accepted, giving 3 accepted frames, 3 sidecar lines after the 2 header lines,
and 3 Sink calls with indices 0, 1, 2. -/
theorem throttle_gate_spec :
    (∀ s f, ((write s f).frameIndex = s.frameIndex + 1 ↔
      s.frameDuration ≤ f.timestamp - s.lastTimestamp)) ∧
    (∀ s f, s.frameDuration ≤ f.timestamp - s.lastTimestamp → s.infoStreamOpen = true →
      write s f =
        { s with
          lastTimestamp := f.timestamp
          sidecar := s.sidecar ++ [sidecarEntry f s.frameIndex]
          frameIndex := s.frameIndex + 1
          frameBuffer := s.frameBuffer ++ [f]
          framesAvailable := true }) ∧
    (∀ s f, ¬ s.frameDuration ≤ f.timestamp - s.lastTimestamp → write s f = s) ∧
    (∀ s l, List.Chain' (fun a b => s.frameDuration ≤ b.timestamp - a.timestamp)
      (acceptedFrames s l)) ∧
    (s10.frameDuration = 100000 ∧
      acceptedFrames (openWriter s10 0)
          [frAt 0, frAt 30000, frAt 60000, frAt 100000, frAt 250000]
        = [frAt 0, frAt 100000, frAt 250000] ∧
      (List.foldl write (openWriter s10 0)
          [frAt 0, frAt 30000, frAt 60000, frAt 100000, frAt 250000]).frameIndex = 3 ∧
      (List.foldl write (openWriter s10 0)
          [frAt 0, frAt 30000, frAt 60000, frAt 100000, frAt 250000]).sidecar.length = 5 ∧
      (closeWriter (List.foldl write (openWriter s10 0)
          [frAt 0, frAt 30000, frAt 60000, frAt 100000, frAt 250000])).sinkLog.map
            SinkCall.index
        = [0, 1, 2]) := by
  refine ⟨write_frameIndex_iff, ?_, write_of_drop, ?_, by decide⟩
  · intro s f h hs
    rw [write_of_accept s f h]
    simp [hs]
  · intro s l
    exact (acceptedFrames_chain l s).1

/-- C1 witness: in the fps=10 scenario the frame submitted 30 ms after an
accepted frame is dropped with no state change. -/
theorem throttle_gate_spec_witness :
    write (write (openWriter s10 0) (frAt 0)) (frAt 30000)
      = write (openWriter s10 0) (frAt 0) :=
  throttle_gate_spec.2.2.1 (write (openWriter s10 0) (frAt 0)) (frAt 30000) (by decide)

/-- C2: over one open/close session on a fresh writer, the consumer invokes the
Sink exactly once per accepted frame, in FIFO (acceptance) order, the
`sequence_index` values are exactly `0, 1, ..., n-1`, each call carries the
pixel conversion and dimensions of its frame, and the accepted frames are in
non-decreasing timestamp order. -/
theorem consumer_sink_delivery (s0 : WriterState) (t : Int)
    (frames : List TimestampedVideoFrame)
    (hclosed : s0.isOpen = false) (hbuf : s0.frameBuffer = [])
    (hd : 0 ≤ s0.frameDuration)
    (hgood : ∀ f ∈ acceptedFrames (openWriter s0 t) frames,
      f.width ≠ 0 ∧ (f.channels = 3 ∨ f.channels = 4)) :
    (closeWriter (List.foldl write (openWriter s0 t) frames)).sinkLog.length =
      (acceptedFrames (openWriter s0 t) frames).length ∧
    (closeWriter (List.foldl write (openWriter s0 t) frames)).sinkLog.map SinkCall.index =
      List.range (acceptedFrames (openWriter s0 t) frames).length ∧
    (∀ i, i < (acceptedFrames (openWriter s0 t) frames).length →
      matchesFrame
        ((closeWriter (List.foldl write (openWriter s0 t) frames)).sinkLog.getD i default)
        ((acceptedFrames (openWriter s0 t) frames).getD i default)) ∧
    List.Chain' (fun a b => a.timestamp ≤ b.timestamp)
      (acceptedFrames (openWriter s0 t) frames) := by
  have h1open : (openWriter s0 t).infoStreamOpen = true := rfl
  have h1dur : (openWriter s0 t).frameDuration = s0.frameDuration :=
    closeWriter_frameDuration s0
  have h1buf : (openWriter s0 t).frameBuffer = [] := by
    show (closeWriter s0).frameBuffer = []
    rw [closeWriter_of_not_open s0 hclosed]
    exact hbuf
  obtain ⟨f1, f2, f3, f4, f5, f6, f7, f8⟩ := foldl_write_spec frames (openWriter s0 t) h1open
  have h2open : (List.foldl write (openWriter s0 t) frames).isOpen = true := by rw [f5]; rfl
  have h2buf : (List.foldl write (openWriter s0 t) frames).frameBuffer
      = acceptedFrames (openWriter s0 t) frames := by
    rw [f2, h1buf, List.nil_append]
  have h2cnt : (List.foldl write (openWriter s0 t) frames).consumerCount = 0 := by rw [f7]; rfl
  have h2log : (List.foldl write (openWriter s0 t) frames).sinkLog = [] := by rw [f8]; rfl
  obtain ⟨e1, e2, e3, e4, e5⟩ :=
    writeFrames_ok (acceptedFrames (openWriter s0 t) frames) 0 hgood
  have hsink : (closeWriter (List.foldl write (openWriter s0 t) frames)).sinkLog
      = (writeFrames (acceptedFrames (openWriter s0 t) frames) 0).1.1 := by
    rw [closeWriter_sinkLog_of_open _ h2open, h2log, h2buf, h2cnt, List.nil_append]
  refine ⟨?_, ?_, ?_, ?_⟩
  · rw [hsink, e3]
  · rw [hsink, e4, ← List.range_eq_range']
  · intro i hi
    rw [hsink]
    exact e5 i hi
  · refine List.Chain'.imp ?_ (acceptedFrames_chain frames (openWriter s0 t)).1
    intro a b hab
    rw [h1dur] at hab
    omega

/-- C2 witness: a concrete two-frame session delivers Sink indices 0, 1 and the
first call matches the first accepted frame. -/
theorem consumer_sink_delivery_witness :
    (closeWriter (List.foldl write (openWriter s10 0) [frAt 0, frAt 200000])).sinkLog.map
        SinkCall.index = List.range 2 ∧
    matchesFrame
      ((closeWriter (List.foldl write (openWriter s10 0) [frAt 0, frAt 200000])).sinkLog.getD
        0 default)
      ((acceptedFrames (openWriter s10 0) [frAt 0, frAt 200000]).getD 0 default) := by
  have h := consumer_sink_delivery s10 0 [frAt 0, frAt 200000]
    (by decide) (by decide) (by decide) (by decide)
  have hl : (acceptedFrames (openWriter s10 0) [frAt 0, frAt 200000]).length = 2 := by decide
  refine ⟨?_, h.2.2.1 0 (by decide)⟩
  have h2 := h.2.1
  rw [hl] at h2
  exact h2

/-- C3: the pixel conversion is a pure function of
`(pixel_bytes, width, height, channel_count)`.  With 3 channels the output is
byte-for-byte the input.  With 4 channels the output has exactly
`width*height*3` bytes, output bytes `3i`, `3i+1`, `3i+2` all equal input byte
`4i+3`, the input's RGB bytes have no influence on the output, and a 4-channel
frame whose every 4th byte is `V` converts to a `width*height*3` buffer of all
`V`s. -/
theorem pixel_conversion_spec :
    (∀ (p : List Nat) (w h : Nat), convertPixels p w h 3 = some p) ∧
    (∀ (p : List Nat) (w h : Nat),
      convertPixels p w h 4 = some (extractDDD p (w * h)) ∧
      (extractDDD p (w * h)).length = w * h * 3 ∧
      (∀ i j, i < w * h → j < 3 →
        (extractDDD p (w * h)).getD (3 * i + j) 0 = p.getD (i * 4 + 3) 0)) ∧
    (∀ (p q : List Nat) (w h : Nat),
      (∀ i, i < w * h → p.getD (i * 4 + 3) 0 = q.getD (i * 4 + 3) 0) →
      convertPixels p w h 4 = convertPixels q w h 4) ∧
    (∀ (p : List Nat) (w h V : Nat),
      (∀ i, i < w * h → p.getD (i * 4 + 3) 0 = V) →
      (∀ b ∈ extractDDD p (w * h), b = V) ∧ (extractDDD p (w * h)).length = w * h * 3) := by
  refine ⟨?_, ?_, ?_, ?_⟩
  · intro p w h
    simp [convertPixels]
  · intro p w h
    exact ⟨by simp [convertPixels], by rw [extractDDD_length]; ring,
      fun i j hi hj => extractDDD_getD p (w * h) i j hi hj⟩
  · intro p q w h hpq
    have he : extractDDD p (w * h) = extractDDD q (w * h) := extractDDD_congr p q (w * h) hpq
    simp [convertPixels, he]
  · intro p w h V hV
    exact ⟨extractDDD_const p (w * h) V hV, by rw [extractDDD_length]; ring⟩

/-- C3 witness: a concrete all-`V` 4-channel pixel and a concrete 3-channel
pass-through. -/
theorem pixel_conversion_spec_witness :
    (extractDDD [9, 9, 9, 5] (1 * 1)).length = 1 * 1 * 3 ∧
    convertPixels [1, 2, 3] 1 1 3 = some [1, 2, 3] :=
  ⟨(pixel_conversion_spec.2.2.2 [9, 9, 9, 5] 1 1 5 (by decide)).2,
   pixel_conversion_spec.1 [1, 2, 3] 1 1⟩

/-- C4: when the consumer dequeues a non-sentinel frame whose channel count is
neither 3 nor 4, the drain aborts with the fatal `runtime_error`: the bad frame
produces no Sink call, no later frame is processed (the rest of the queue is
left untouched), and the frames before it were each forwarded exactly once with
indices `0..pre.length-1`. -/
theorem consumer_unsupported_channels_fatal (pre : List TimestampedVideoFrame)
    (bad : TimestampedVideoFrame) (post : List TimestampedVideoFrame)
    (hpre : ∀ f ∈ pre, f.width ≠ 0 ∧ (f.channels = 3 ∨ f.channels = 4))
    (hbw : bad.width ≠ 0) (hb3 : bad.channels ≠ 3) (hb4 : bad.channels ≠ 4) :
    (writeFrames (pre ++ bad :: post) 0).1.2 = some "Unsupported number of channels" ∧
    (writeFrames (pre ++ bad :: post) 0).1.1.length = pre.length ∧
    (writeFrames (pre ++ bad :: post) 0).1.1.map SinkCall.index = List.range pre.length ∧
    (writeFrames (pre ++ bad :: post) 0).2 = post := by
  obtain ⟨e1, e2, e3, e4⟩ := writeFrames_fatal pre bad post 0 hpre hbw hb3 hb4
  refine ⟨e1, e2, ?_, e4⟩
  rw [e3, ← List.range_eq_range']

/-- C4 witness: a 2-channel frame after one good frame aborts the drain,
leaving exactly one Sink call and the later frame unprocessed. -/
theorem consumer_unsupported_channels_fatal_witness :
    (writeFrames ([frAt 0] ++ { frAt 500000 with channels := 2 } :: [frAt 600000]) 0).1.2
      = some "Unsupported number of channels" ∧
    (writeFrames ([frAt 0] ++ { frAt 500000 with channels := 2 } :: [frAt 600000]) 0).1.1.length
      = 1 ∧
    (writeFrames ([frAt 0] ++ { frAt 500000 with channels := 2 } :: [frAt 600000]) 0).2
      = [frAt 600000] := by
  have h := consumer_unsupported_channels_fatal [frAt 0] { frAt 500000 with channels := 2 }
    [frAt 600000] (by decide) (by decide) (by decide) (by decide)
  exact ⟨h.1, by rw [h.2.1]; rfl, h.2.2.2⟩

/-- C5 counterexample: after `open()` at start time 0 with fps=10,
`last_accepted_timestamp` is indeed `start_time - frame_duration`, yet the very
first submitted frame, timestamped 1 µs before `start_time`, is dropped — so
the first frame is not accepted "regardless of its timestamp". -/
theorem first_frame_not_always_accepted :
    (openWriter s10 0).lastTimestamp = 0 - (openWriter s10 0).frameDuration ∧
    write (openWriter s10 0) (frAt (-1)) = openWriter s10 0 ∧
    (write (openWriter s10 0) (frAt (-1))).frameIndex = 0 := by decide

/-- C5 (amended): after `open()`, `last_accepted_timestamp = start_time -
frame_duration`, and the first frame submitted after `open()` is accepted iff
its timestamp is at least `start_time`; in particular every first frame
timestamped at or after the `open()` call is accepted. -/
theorem first_frame_accept_iff (s : WriterState) (t : Int) (f : TimestampedVideoFrame) :
    (openWriter s t).lastTimestamp = t - s.frameDuration ∧
    ((write (openWriter s t) f).frameIndex = (openWriter s t).frameIndex + 1 ↔
      t ≤ f.timestamp) := by
  have hlast : (openWriter s t).lastTimestamp = t - s.frameDuration := by
    show t - (closeWriter s).frameDuration = t - s.frameDuration
    rw [closeWriter_frameDuration]
  have hdur : (openWriter s t).frameDuration = s.frameDuration := closeWriter_frameDuration s
  refine ⟨hlast, ?_⟩
  rw [write_frameIndex_iff, hlast, hdur]
  omega

/-- C5 witness: the first frame of a session, timestamped 5 µs after start, is
accepted. -/
theorem first_frame_accept_iff_witness :
    (write (openWriter s10 0) (frAt 5)).frameIndex = (openWriter s10 0).frameIndex + 1 :=
  (first_frame_accept_iff s10 0 (frAt 5)).2.mpr (by decide)

/-- C6: over one open/close session on a fresh writer, the sidecar holds
exactly the two header lines `width=<int>` then `height=<int>` followed by one
line per accepted frame, in acceptance order, the i-th per-frame line carrying
producer counter value i; each accepted frame's line is written by the same
`write` step that enqueues it, so the enqueued frames equal the accepted frames
in the same order and the per-frame line count always equals the accepted
count.  The frame name is the counter zero-padded to (at least) 6 digits. -/
theorem sidecar_session_spec (s0 : WriterState) (t : Int)
    (frames : List TimestampedVideoFrame)
    (hclosed : s0.isOpen = false) (hbuf : s0.frameBuffer = []) :
    (List.foldl write (openWriter s0 t) frames).sidecar =
      ("width=" ++ toString s0.width) :: ("height=" ++ toString s0.height) ::
        sidecarLinesFor (acceptedFrames (openWriter s0 t) frames) 0 ∧
    (List.foldl write (openWriter s0 t) frames).frameBuffer =
      acceptedFrames (openWriter s0 t) frames ∧
    (∀ (fl : List TimestampedVideoFrame) (n : Nat),
      (sidecarLinesFor fl n).length = fl.length) ∧
    (∀ n : Nat, (padZeros6 n).length = max 6 (toString n).length) ∧
    padZeros6 7 = "000007" := by
  have h1open : (openWriter s0 t).infoStreamOpen = true := rfl
  obtain ⟨f1, f2, _, _, _, _, _, _⟩ := foldl_write_spec frames (openWriter s0 t) h1open
  have hsc : (openWriter s0 t).sidecar
      = ["width=" ++ toString s0.width, "height=" ++ toString s0.height] := by
    show ["width=" ++ toString (closeWriter s0).width,
          "height=" ++ toString (closeWriter s0).height] = _
    rw [closeWriter_width, closeWriter_height]
  have hfi : (openWriter s0 t).frameIndex = 0 := rfl
  have hfb : (openWriter s0 t).frameBuffer = [] := by
    show (closeWriter s0).frameBuffer = []
    rw [closeWriter_of_not_open s0 hclosed]
    exact hbuf
  refine ⟨?_, ?_, ?_, padZeros6_length, by decide⟩
  · rw [f1, hsc, hfi]
    rfl
  · rw [f2, hfb, List.nil_append]
  · intro fl
    induction fl with
    | nil => intro n; rfl
    | cons g gs ih => intro n; simp [sidecarLinesFor, ih]

/-- C6 witness: a one-frame session's sidecar is the two headers plus the one
accepted frame's line. -/
theorem sidecar_session_spec_witness :
    (List.foldl write (openWriter s10 0) [frAt 0]).sidecar =
      ("width=" ++ toString s10.width) :: ("height=" ++ toString s10.height) ::
        sidecarLinesFor (acceptedFrames (openWriter s10 0) [frAt 0]) 0 :=
  (sidecar_session_spec s10 0 [frAt 0] (by decide) (by decide)).1

/-- C7: `close()` on a closed pipeline is a no-op and `close` is idempotent;
destruction is exactly `close()`; `open()` first performs a full close (so
re-opening never leaks the previous session's thread or stream) and resets the
pipeline state: `is_open`, `start_time`, `last_accepted_timestamp =
start_time - frame_duration`, both frame counters to 0, the available flag to
false, a fresh running consumer thread and a fresh sidecar stream; and a
`close()` of an open pipeline stops the thread and closes the stream. -/
theorem lifecycle_spec :
    (∀ s, s.isOpen = false → closeWriter s = s) ∧
    (∀ s, closeWriter (closeWriter s) = closeWriter s) ∧
    (∀ s, destroyVideoFrameWriter s = closeWriter s) ∧
    (∀ s t, openWriter s t = openWriter (closeWriter s) t) ∧
    (∀ s t, (openWriter s t).isOpen = true ∧ (openWriter s t).startTime = t ∧
      (openWriter s t).lastTimestamp = t - s.frameDuration ∧
      (openWriter s t).frameIndex = 0 ∧ (openWriter s t).consumerCount = 0 ∧
      (openWriter s t).framesAvailable = false ∧ (openWriter s t).threadRunning = true ∧
      (openWriter s t).infoStreamOpen = true ∧ (openWriter s t).sinkLog = []) ∧
    (∀ s, (closeWriter s).isOpen = false) ∧
    (∀ s, s.isOpen = true →
      (closeWriter s).infoStreamOpen = false ∧ (closeWriter s).threadRunning = false) := by
  have hidem : ∀ s, closeWriter (closeWriter s) = closeWriter s := fun s =>
    closeWriter_of_not_open (closeWriter s) (closeWriter_isOpen s)
  refine ⟨closeWriter_of_not_open, hidem, fun s => rfl, ?_, ?_, closeWriter_isOpen, ?_⟩
  · intro s t
    unfold openWriter
    rw [hidem]
  · intro s t
    refine ⟨rfl, rfl, ?_, rfl, rfl, rfl, rfl, rfl, rfl⟩
    show t - (closeWriter s).frameDuration = t - s.frameDuration
    rw [closeWriter_frameDuration]
  · intro s h
    rw [closeWriter_of_open s h]
    exact ⟨rfl, rfl⟩

/-- C7 witness: closing an already-closed concrete session changes nothing,
and closing an open one stops the consumer thread. -/
theorem lifecycle_spec_witness :
    closeWriter (closeWriter (openWriter s10 0)) = closeWriter (openWriter s10 0) ∧
    (closeWriter (openWriter s10 0)).threadRunning = false :=
  ⟨lifecycle_spec.2.1 (openWriter s10 0),
   (lifecycle_spec.2.2.2.2.2.2 (openWriter s10 0) (by decide)).2⟩

/-- C8 counterexample: with `target_fps = 3` the code's `frame_duration` is
`milliseconds(1000) / 3 = 333333` microsecond ticks (333.333 ms), not the 333
milliseconds (= 333000 ticks) the claim states. -/
theorem frame_duration_fps3_not_333ms :
    frameDurationOf 3 = some 333333 ∧ frameDurationOf 3 ≠ some 333000 := by decide

/-- C8 (amended): `frame_duration` is fixed at construction and equals 1000 ms
expressed in the timestamp resolution (1 000 000 microsecond ticks)
integer-divided by `target_fps` — the sub-tick remainder is discarded and the
resulting drift is tolerated, not corrected (3 frame durations at fps=3 fall
short of one second); e.g. `target_fps = 3` yields 333333 µs ≈ 333.333 ms.  No
operation ever changes `frame_duration`. -/
theorem frame_duration_spec :
    (∀ fps : Int, fps ≠ 0 → frameDurationOf fps = some (1000000 / fps)) ∧
    frameDurationOf 3 = some 333333 ∧
    frameDurationOf 10 = some 100000 ∧
    (frameDurationOf 3).getD 0 * 3 ≠ 1000000 ∧
    (∀ s f, (write s f).frameDuration = s.frameDuration) ∧
    (∀ s t, (openWriter s t).frameDuration = s.frameDuration) ∧
    (∀ s, (closeWriter s).frameDuration = s.frameDuration) := by
  refine ⟨?_, by decide, by decide, by decide, write_frameDuration, ?_, closeWriter_frameDuration⟩
  · intro fps h
    unfold frameDurationOf
    rw [if_neg h]
  · intro s t
    exact closeWriter_frameDuration s

/-- C8 witness: the general division formula at fps = 7. -/
theorem frame_duration_spec_witness : frameDurationOf 7 = some (1000000 / 7) :=
  frame_duration_spec.1 7 (by decide)

/-- C9: `write` never consults `is_open`: on a closed pipeline (stream closed,
no consumer thread), a frame passing the throttle still updates
`last_timestamp`, increments `frame_index`, gets enqueued and raises the
available flag, with no error; the attempted sidecar insertion hits the closed
stream and thus changes nothing in the file, and nothing starts a thread to
ever dequeue the frame. -/
theorem write_ignores_closed (s : WriterState) (f : TimestampedVideoFrame)
    (hclosed : s.isOpen = false) (hstream : s.infoStreamOpen = false)
    (hcond : s.frameDuration ≤ f.timestamp - s.lastTimestamp) :
    write s f =
      { s with
        lastTimestamp := f.timestamp
        frameIndex := s.frameIndex + 1
        frameBuffer := s.frameBuffer ++ [f]
        framesAvailable := true } ∧
    (write s f).sidecar = s.sidecar ∧
    (write s f).isOpen = false ∧
    (write s f).threadRunning = s.threadRunning := by
  refine ⟨?_, ?_, ?_, write_threadRunning s f⟩
  · rw [write_of_accept s f hcond]
    simp [hstream]
  · rw [write_of_accept s f hcond]
    simp [hstream]
  · rw [write_isOpen]
    exact hclosed

/-- C9 witness: submitting to a concrete closed writer still accepts and
enqueues the frame while the file and lifecycle state stay untouched. -/
theorem write_ignores_closed_witness :
    write (closeWriter (openWriter s10 0)) (frAt 0) =
      { closeWriter (openWriter s10 0) with
        lastTimestamp := 0
        frameIndex := 1
        frameBuffer := [frAt 0]
        framesAvailable := true } := by
  have h := write_ignores_closed (closeWriter (openWriter s10 0)) (frAt 0)
    (by decide) (by decide) (by decide)
  exact h.1.trans (by decide)

/-- C10: the constructor divides `milliseconds(1000)` by `frames_per_second`
with no guard: the division is well-defined exactly when `frames_per_second ≠
0` (in which case construction succeeds with `frame_duration = 1000000 / fps`),
and constructing with `frames_per_second = 0` is the modelled undefined
behaviour `none`. -/
theorem constructor_requires_nonzero_fps :
    (∀ w h : Int, mkVideoFrameWriter w h 0 = none) ∧
    frameDurationOf 0 = none ∧
    (∀ w h fps : Int, fps ≠ 0 →
      ∃ s, mkVideoFrameWriter w h fps = some s ∧ s.frameDuration = 1000000 / fps ∧
        s.width = w ∧ s.height = h ∧ s.framesPerSecond = fps ∧ s.isOpen = false) := by
  refine ⟨fun w h => rfl, rfl, ?_⟩
  intro w h fps hfps
  have hd : frameDurationOf fps = some (1000000 / fps) := by
    unfold frameDurationOf
    rw [if_neg hfps]
  refine ⟨{ width := w, height := h, framesPerSecond := fps, isOpen := false,
            frameDuration := 1000000 / fps, startTime := 0, lastTimestamp := 0,
            frameIndex := 0, sidecar := [], infoStreamOpen := false, frameBuffer := [],
            framesAvailable := false, consumerCount := 0, sinkLog := [],
            threadRunning := false }, ?_, rfl, rfl, rfl, rfl, rfl⟩
  unfold mkVideoFrameWriter
  rw [hd]
  rfl

/-- C10 witness: fps = 0 yields the undefined division; fps = 10 constructs. -/
theorem constructor_requires_nonzero_fps_witness :
    mkVideoFrameWriter 1 1 0 = none ∧ (mkVideoFrameWriter 1 1 10).isSome = true := by
  refine ⟨constructor_requires_nonzero_fps.1 1 1, ?_⟩
  obtain ⟨s, hs, -⟩ := constructor_requires_nonzero_fps.2.2 1 1 10 (by decide)
  rw [hs]
  rfl
